import Mathlib

/-!
Shallow embedding of `src/actix_postgres_api/src/auth_utils.rs`.

Strings are modelled as Lean `String`; Rust's `str::len()` is the UTF-8 byte
length, modelled by `utf8Len` below.  The Rust character-class predicates and
the three regular expressions are embedded as executable Lean functions, as
follows.

Character classes: Rust `char::is_digit(10)` is the ASCII digits; Rust
`char::is_uppercase` / `char::is_lowercase` / `char::is_whitespace` are Unicode
classes, modelled here by their restriction to the ASCII range plus the Polish
diacritics that appear in this module (the only non-ASCII characters the
module's own rules mention).  Rust `str::to_lowercase` is modelled by ASCII
lowercasing, which agrees with it on every role string the code compares
against.

Regexes: each of the three patterns in the source is anchored (`^...$`), so
`Regex::is_match` asks whether the whole string decomposes per the pattern.
Each is embedded as a linear-time matcher whose correctness argument versus the
existential regex semantics is given at its definition.  Regex compilation in
the source can only fail on a malformed pattern; all three patterns are fixed
valid literals, so the `InternalServerError` branches guarded by compilation
are never taken and the embedding inlines successful compilation.
-/

/-- The error enum `crate::error::AppError` as used by `auth_utils.rs`
(spec section 7: a tagged union of a client-caused validation failure and an
internal failure, each carrying a message). -/
inductive AppError where
  | ValidationError (msg : String)
  | InternalServerError (msg : String)
  deriving DecidableEq, Repr

instance {ε α : Type} [DecidableEq ε] [DecidableEq α] : DecidableEq (Except ε α) := fun x y =>
  match x, y with
  | .ok a, .ok b =>
    if h : a = b then .isTrue (by rw [h]) else .isFalse (by simp [h])
  | .error a, .error b =>
    if h : a = b then .isTrue (by rw [h]) else .isFalse (by simp [h])
  | .ok _, .error _ => .isFalse (by simp)
  | .error _, .ok _ => .isFalse (by simp)

/-- The apostrophe character (U+0027), one of the characters admitted by the
full-name regex. -/
def apostropheChar : Char := Char.ofNat 39

/-- Rust `c.is_digit(10)`: the ASCII digits 0-9. -/
def rIsDigit (c : Char) : Bool := c.isDigit

/-- The Polish uppercase diacritics listed in the full-name regex. -/
def polishUpper : List Char := ['Ą', 'Ć', 'Ę', 'Ł', 'Ń', 'Ó', 'Ś', 'Ź', 'Ż']

/-- The Polish lowercase diacritics listed in the full-name regex. -/
def polishLower : List Char := ['ą', 'ć', 'ę', 'ł', 'ń', 'ó', 'ś', 'ź', 'ż']

/-- Rust `c.is_uppercase()`, restricted to ASCII letters plus the Polish
diacritics used by this module. -/
def rIsUpper (c : Char) : Bool := c.isUpper || polishUpper.contains c

/-- Rust `c.is_lowercase()`, restricted to ASCII letters plus the Polish
diacritics used by this module. -/
def rIsLower (c : Char) : Bool := c.isLower || polishLower.contains c

/-- Rust `c.is_whitespace()` and the regex class `\s`, restricted to the ASCII
range: space, tab, line feed, vertical tab, form feed, carriage return. -/
def rIsWhitespace (c : Char) : Bool :=
  c = ' ' || c = Char.ofNat 9 || c = Char.ofNat 10 || c = Char.ofNat 11 ||
  c = Char.ofNat 12 || c = Char.ofNat 13

/-- Rust `str::len()`: the length of the string in UTF-8 bytes. -/
def utf8Len (l : List Char) : Nat := (l.map Char.utf8Size).sum

/-- Rust `phone.chars().filter(|c| c.is_digit(10)).count()`. -/
def digitCount (l : List Char) : Nat := (l.filter rIsDigit).length

/-- Rust `str::split_whitespace(...).count()`: the number of maximal nonempty
runs of non-whitespace characters.  The Boolean argument records whether the
previous character was part of a run. -/
def countPartsAux : List Char → Bool → Nat
  | [], _ => 0
  | c :: rest, inWord =>
    if rIsWhitespace c then countPartsAux rest false
    else (if inWord then 0 else 1) + countPartsAux rest true

/-- The number of parts `full_name.split_whitespace().collect::<Vec<_>>().len()`. -/
def countParts (l : List Char) : Nat := countPartsAux l false

/-- Rust `str::to_lowercase`, modelled by ASCII lowercasing. -/
def toLowercaseR (s : String) : String := String.mk (s.data.map Char.toLower)

/-- The class `[a-zA-Z0-9._%+-]` of the email regex (local part). -/
def isLocalChar (c : Char) : Bool :=
  c.isAlpha || c.isDigit || c = '.' || c = '_' || c = '%' || c = '+' || c = '-'

/-- The class `[a-zA-Z0-9.-]` of the email regex (domain, before the last dot). -/
def isDomainChar (c : Char) : Bool :=
  c.isAlpha || c.isDigit || c = '.' || c = '-'

/-- Matcher for the tail `[a-zA-Z0-9.-]+\.[a-zA-Z]{2,}$` of the email regex,
run on the reverse of the candidate string.  A match splits the string at a
dot whose suffix is two or more letters; since that suffix contains no dot,
the split can only be at the last dot, which this function reaches by first
consuming the trailing letters (counted by `k`) of the reversed string. -/
def domMatchRev : List Char → Nat → Bool
  | [], _ => false
  | c :: rest, k =>
    if c = '.' then decide (2 ≤ k) && !rest.isEmpty && rest.all isDomainChar
    else c.isAlpha && domMatchRev rest (k + 1)

/-- Matcher for `[a-zA-Z0-9.-]+\.[a-zA-Z]{2,}$`: the part of the email regex
after the `@`. -/
def domMatch (l : List Char) : Bool := domMatchRev l.reverse 0

/-- Matcher for `[a-zA-Z0-9._%+-]*@[a-zA-Z0-9.-]+\.[a-zA-Z]{2,}$`: consumes
further local-part characters until the `@`.  The local class does not contain
`@` and nothing after the `@` may be an `@`, so a matching string has exactly
one `@` and the decomposition is at that unique occurrence. -/
def emailTail : List Char → Bool
  | [] => false
  | c :: rest => if c = '@' then domMatch rest else isLocalChar c && emailTail rest

/-- Matcher for the email regex `^[a-zA-Z0-9._%+-]+@[a-zA-Z0-9.-]+\.[a-zA-Z]{2,}$`
compiled in `validate_email`: at least one local-part character, then `@`,
then the domain part. -/
def emailMatch : List Char → Bool
  | [] => false
  | c :: rest => isLocalChar c && emailTail rest

/-- The class `[\d\s-]` of the phone regex. -/
def isPhoneChar (c : Char) : Bool := rIsDigit c || rIsWhitespace c || c = '-'

/-- The optional prefix `[+]?` of the phone regex: `+` is not in `[\d\s-]`, so
a leading `+` must be consumed by the optional group and any other `+` fails
the match. -/
def stripPlus : List Char → List Char
  | [] => []
  | c :: rest => if c = '+' then rest else c :: rest

/-- Matcher for the phone regex `^[+]?[\d\s-]{6,20}$` compiled in
`validate_phone_number`. -/
def phoneMatch (l : List Char) : Bool :=
  let body := stripPlus l
  decide (6 ≤ body.length) && decide (body.length ≤ 20) && body.all isPhoneChar

/-- The class `[a-zA-Z0-9_\.]` of the username regex. -/
def isUsernameChar (c : Char) : Bool :=
  c.isAlpha || c.isDigit || c = '_' || c = '.'

/-- Matcher for the username regex `^[a-zA-Z0-9_\.]+$` compiled in
`validate_username`. -/
def usernameMatch (l : List Char) : Bool := !l.isEmpty && l.all isUsernameChar

/-- The class `[a-zA-ZąćęłńóśźżĄĆĘŁŃÓŚŹŻ \-\']` of the full-name regex:
ASCII letters, the fixed Polish diacritics, space, hyphen, apostrophe. -/
def isNameChar (c : Char) : Bool :=
  c.isAlpha || polishLower.contains c || polishUpper.contains c ||
  c = ' ' || c = '-' || c = apostropheChar

/-- Matcher for the full-name regex `^[a-zA-ZąćęłńóśźżĄĆĘŁŃÓŚŹŻ \-\']+$`
compiled in `validate_full_name`. -/
def nameMatch (l : List Char) : Bool := !l.isEmpty && l.all isNameChar

/-! Error messages, verbatim from the source. -/

def pwLenMsg : String := "Password must be at least 8 characters long"

def pwDigitMsg : String := "Password must contain at least one digit"

def pwUpperMsg : String := "Password must contain at least one uppercase letter"

def pwLowerMsg : String := "Password must contain at least one lowercase letter"

def emailFmtMsg : String := "Invalid email format"

def emailLenMsg : String := "Email is too long (max 100 characters)"

def emailAtMsg : String := "Email must contain @ character"

def phoneFmtMsg : String :=
  "Invalid phone number format. Use only digits, spaces, hyphens, and optionally a + prefix"

def phoneDigitsMsg : String := "Phone number must contain at least 6 digits"

def userMinMsg : String := "Username must be at least 3 characters long"

def userMaxMsg : String := "Username is too long (max 50 characters)"

def userCharsMsg : String := "Username can only contain letters, numbers, underscores and dots"

def nameMinMsg : String := "Full name must be at least 2 characters long"

def nameMaxMsg : String := "Full name is too long (max 100 characters)"

def namePartsMsg : String := "Full name must include both first and last name"

def nameCharsMsg : String := "Full name can only contain letters, spaces, hyphens and apostrophes"

/-- The message of `validate_role`, which quotes the two role names between
apostrophes in the source. -/
def roleMsg : String :=
  "Invalid role. Must be " ++ String.mk [apostropheChar] ++ "client" ++
  String.mk [apostropheChar] ++ " or " ++ String.mk [apostropheChar] ++ "trainer" ++
  String.mk [apostropheChar]

/-- Embedding of `validate_password`: byte-length at least 8, then at least
one ASCII digit, then at least one uppercase letter, then at least one
lowercase letter; the first failing check determines the error. -/
def validate_password (password : String) : Except AppError Unit :=
  if utf8Len password.data < 8 then
    .error (.ValidationError pwLenMsg)
  else if !password.data.any rIsDigit then
    .error (.ValidationError pwDigitMsg)
  else if !password.data.any rIsUpper then
    .error (.ValidationError pwUpperMsg)
  else if !password.data.any rIsLower then
    .error (.ValidationError pwLowerMsg)
  else
    .ok ()

/-- Embedding of `validate_email`: the regex match first, then the byte-length
bound of 100, then the explicit `@`-presence check. -/
def validate_email (email : String) : Except AppError Unit :=
  if !emailMatch email.data then
    .error (.ValidationError emailFmtMsg)
  else if utf8Len email.data > 100 then
    .error (.ValidationError emailLenMsg)
  else if !email.data.contains '@' then
    .error (.ValidationError emailAtMsg)
  else
    .ok ()

/-- Embedding of `validate_phone_number`: the regex match first, then the
ASCII-digit count bound of 6. -/
def validate_phone_number (phone : String) : Except AppError Unit :=
  if !phoneMatch phone.data then
    .error (.ValidationError phoneFmtMsg)
  else if digitCount phone.data < 6 then
    .error (.ValidationError phoneDigitsMsg)
  else
    .ok ()

/-- Embedding of `validate_username`: byte-length at least 3, then byte-length
at most 50, then the regex match. -/
def validate_username (username : String) : Except AppError Unit :=
  if utf8Len username.data < 3 then
    .error (.ValidationError userMinMsg)
  else if utf8Len username.data > 50 then
    .error (.ValidationError userMaxMsg)
  else if !usernameMatch username.data then
    .error (.ValidationError userCharsMsg)
  else
    .ok ()

/-- Embedding of `validate_full_name`: byte-length at least 2, then byte-length
at most 100, then at least two whitespace-separated parts, then the regex
match. -/
def validate_full_name (full_name : String) : Except AppError Unit :=
  if utf8Len full_name.data < 2 then
    .error (.ValidationError nameMinMsg)
  else if utf8Len full_name.data > 100 then
    .error (.ValidationError nameMaxMsg)
  else if countParts full_name.data < 2 then
    .error (.ValidationError namePartsMsg)
  else if !nameMatch full_name.data then
    .error (.ValidationError nameCharsMsg)
  else
    .ok ()

/-- Embedding of `validate_role`: the lowercased role must equal `client` or
`trainer`, and on success the lowercased role is returned. -/
def validate_role (role : String) : Except AppError String :=
  if toLowercaseR role = "client" || toLowercaseR role = "trainer" then
    .ok (toLowercaseR role)
  else
    .error (.ValidationError roleMsg)

/-- Runs an ordered list of checks, each a pass condition paired with the
message reported when it is the first to fail; succeeds when every check
passes.  Used to state which check order each validator implements. -/
def runChecks : List (Bool × String) → Except AppError Unit
  | [] => .ok ()
  | (ok, msg) :: rest => if ok then runChecks rest else .error (.ValidationError msg)

/-! Helper lemmas. -/

/-- Every string accepted by the part of the email matcher that looks for the
`@` delimiter contains an `@`. -/
lemma emailTail_mem_at : ∀ l : List Char, emailTail l = true → '@' ∈ l := by
  intro l
  induction l with
  | nil => simp [emailTail]
  | cons c rest ih =>
    by_cases hc : c = '@'
    · intro _; exact hc ▸ List.mem_cons_self c rest
    · intro h
      simp only [emailTail, if_neg hc, Bool.and_eq_true] at h
      exact List.mem_cons_of_mem c (ih h.2)

/-- Every string matching the email regex contains an `@`. -/
lemma emailMatch_mem_at : ∀ l : List Char, emailMatch l = true → '@' ∈ l := by
  intro l h
  cases l with
  | nil => simp [emailMatch] at h
  | cons c rest =>
    simp only [emailMatch, Bool.and_eq_true] at h
    exact List.mem_cons_of_mem c (emailTail_mem_at rest h.2)

/-- The empty list has UTF-8 byte length zero, so a positive byte-length bound
forces the list to be nonempty. -/
lemma utf8Len_pos_not_isEmpty {l : List Char} (h : 2 ≤ utf8Len l) : l.isEmpty = false := by
  cases l with
  | nil => simp [utf8Len] at h
  | cons c rest => rfl

/-! Claim theorems. -/

/-- C10: on the empty string every one of the six validators returns a
`ValidationError` — never success and never an `InternalServerError`.  The
password, username and full-name validators fail their minimum-length check,
the email and phone validators fail their pattern match, and the role
validator fails its membership check. -/
theorem empty_input_rejected_with_validation_error :
    validate_password "" = .error (.ValidationError pwLenMsg) ∧
    validate_email "" = .error (.ValidationError emailFmtMsg) ∧
    validate_phone_number "" = .error (.ValidationError phoneFmtMsg) ∧
    validate_username "" = .error (.ValidationError userMinMsg) ∧
    validate_full_name "" = .error (.ValidationError nameMinMsg) ∧
    validate_role "" = .error (.ValidationError roleMsg) := by decide

/-- C9: length bounds are measured in UTF-8 bytes, not characters.  A string
of 51 Polish-diacritic letters (51 characters, 102 bytes) is rejected by
`validate_full_name` as too long, and a string of 4 such letters (4
characters, 8 bytes) passes the length check of `validate_password` — it
fails only the later digit check, not the length check. -/
theorem length_bounds_measured_in_bytes :
    (String.mk (List.replicate 51 'ą')).data.length = 51 ∧
    utf8Len (String.mk (List.replicate 51 'ą')).data = 102 ∧
    validate_full_name (String.mk (List.replicate 51 'ą')) =
      .error (.ValidationError nameMaxMsg) ∧
    (String.mk (List.replicate 4 'ą')).data.length = 4 ∧
    utf8Len (String.mk (List.replicate 4 'ą')).data = 8 ∧
    validate_password (String.mk (List.replicate 4 'ą')) =
      .error (.ValidationError pwDigitMsg) := by decide

/-- C4 counterexample: the string of six hyphens matches the phone pattern
(`[+]?` empty, six characters from `[\d\s-]`) yet contains zero ASCII digits,
so the at-least-6-digits branch of `validate_phone_number` is reachable and
is in fact taken on this input. -/
theorem phone_digit_branch_counterexample :
    phoneMatch (String.data "------") = true ∧
    digitCount (String.data "------") = 0 ∧
    validate_phone_number "------" = .error (.ValidationError phoneDigitsMsg) := by decide

/-- C4 amended: the digit-count check is not implied by the phone pattern,
because spaces and hyphens also count toward the pattern's 6-20 length bound;
on every input that matches the pattern but contains fewer than 6 ASCII
digits `validate_phone_number` takes the at-least-6-digits error branch. -/
theorem phone_digit_branch_reachable :
    ∀ s : String, phoneMatch s.data = true → digitCount s.data < 6 →
      validate_phone_number s = .error (.ValidationError phoneDigitsMsg) := by
  intro s h1 h2
  unfold validate_phone_number
  simp [h1, h2]

theorem phone_digit_branch_reachable_witness :
    validate_phone_number "------" = .error (.ValidationError phoneDigitsMsg) :=
  phone_digit_branch_reachable "------" (by decide) (by decide)

/-- C5: the explicit `@`-presence check of `validate_email` is unreachable:
every string matching the email pattern contains an `@`, and consequently
`validate_email` can never return the `Email must contain @ character`
error. -/
theorem email_at_branch_unreachable :
    ∀ e : String, (emailMatch e.data = true → ('@') ∈ e.data) ∧
      validate_email e ≠ Except.error (AppError.ValidationError emailAtMsg) := by
  intro e
  refine ⟨fun h => emailMatch_mem_at e.data h, ?_⟩
  unfold validate_email
  by_cases h1 : emailMatch e.data
  · have hmem : ('@') ∈ e.data := emailMatch_mem_at e.data h1
    by_cases h2 : utf8Len e.data > 100
    · simp [h1, h2, emailLenMsg, emailAtMsg]
    · simp [h1, h2, hmem]
  · simp [h1, emailFmtMsg, emailAtMsg]

theorem email_at_branch_unreachable_witness :
    ('@') ∈ (String.data "a@b.co") :=
  (email_at_branch_unreachable "a@b.co").1 (by decide)

/-- C2: `validate_password p` succeeds exactly when `p` has byte-length at
least 8, contains an ASCII digit, contains an uppercase letter and contains a
lowercase letter; and when exactly one of the four properties is absent the
returned `ValidationError` carries the message naming that property (the
implications below cover each first-failing check, hence in particular each
exactly-one-absent case). -/
theorem validate_password_spec :
    ∀ p : String,
      (validate_password p = .ok () ↔
        8 ≤ utf8Len p.data ∧ p.data.any rIsDigit = true ∧
        p.data.any rIsUpper = true ∧ p.data.any rIsLower = true) ∧
      (utf8Len p.data < 8 →
        validate_password p = .error (.ValidationError pwLenMsg)) ∧
      (8 ≤ utf8Len p.data → p.data.any rIsDigit = false →
        validate_password p = .error (.ValidationError pwDigitMsg)) ∧
      (8 ≤ utf8Len p.data → p.data.any rIsDigit = true → p.data.any rIsUpper = false →
        validate_password p = .error (.ValidationError pwUpperMsg)) ∧
      (8 ≤ utf8Len p.data → p.data.any rIsDigit = true → p.data.any rIsUpper = true →
        p.data.any rIsLower = false →
        validate_password p = .error (.ValidationError pwLowerMsg)) := by
  intro p
  unfold validate_password
  refine ⟨?_, ?_, ?_, ?_, ?_⟩
  · constructor
    · intro h
      by_cases h1 : utf8Len p.data < 8
      · simp [h1] at h
      · cases h2 : p.data.any rIsDigit
        · simp [h1, h2] at h
        · cases h3 : p.data.any rIsUpper
          · simp [h1, h2, h3] at h
          · cases h4 : p.data.any rIsLower
            · simp [h1, h2, h3, h4] at h
            · exact ⟨Nat.le_of_not_lt h1, rfl, rfl, rfl⟩
    · rintro ⟨h1, h2, h3, h4⟩
      simp [Nat.not_lt_of_le h1, h2, h3, h4]
  · intro h1; simp [h1]
  · intro h1 h2; simp [Nat.not_lt_of_le h1, h2]
  · intro h1 h2 h3; simp [Nat.not_lt_of_le h1, h2, h3]
  · intro h1 h2 h3 h4; simp [Nat.not_lt_of_le h1, h2, h3, h4]

theorem validate_password_spec_witness :
    validate_password "Passw0rd" = .ok () :=
  (validate_password_spec "Passw0rd").1.mpr (by decide)

/-- C6: `validate_email e` succeeds exactly when `e` matches the email
pattern (nonempty local part of letters, digits and `._%+-`, then `@`, then a
nonempty domain of letters, digits, `.` and `-`, then `.`, then a top-level
domain of at least two letters) and has byte-length at most 100; in
particular `user.name+tag@example.co` is accepted, `user@.com` is rejected
with the format error, and 101 letters `a` followed by `@b.co` are rejected
with the length error. -/
theorem validate_email_spec :
    ∀ e : String,
      (validate_email e = .ok () ↔ emailMatch e.data = true ∧ utf8Len e.data ≤ 100) ∧
      validate_email "user.name+tag@example.co" = .ok () ∧
      validate_email "user@.com" = .error (.ValidationError emailFmtMsg) ∧
      validate_email (String.mk (List.replicate 101 'a') ++ "@b.co") =
        .error (.ValidationError emailLenMsg) := by
  intro e
  refine ⟨?_, by decide, by decide, by decide⟩
  unfold validate_email
  constructor
  · intro h
    by_cases h1 : emailMatch e.data
    · by_cases h2 : utf8Len e.data > 100
      · simp [h1, h2] at h
      · exact ⟨h1, Nat.le_of_not_lt h2⟩
    · simp [h1] at h
  · rintro ⟨h1, h2⟩
    have hmem : ('@') ∈ e.data := emailMatch_mem_at e.data h1
    simp [h1, Nat.not_lt_of_le h2, hmem]

theorem validate_email_spec_witness :
    validate_email "a@b.co" = .ok () :=
  (validate_email_spec "a@b.co").1.mpr (by decide)

/-- C7: `validate_role r` succeeds exactly when the lowercased form of `r` is
`client` or `trainer`, in which case it returns that lowercased string, and
fails with the role `ValidationError` otherwise; in particular `Trainer`
is accepted as `trainer` and `admin` is rejected. -/
theorem validate_role_spec :
    ∀ r : String,
      ((∃ v, validate_role r = .ok v) ↔
        toLowercaseR r = "client" ∨ toLowercaseR r = "trainer") ∧
      (∀ v, validate_role r = .ok v → v = toLowercaseR r) ∧
      (¬(toLowercaseR r = "client" ∨ toLowercaseR r = "trainer") →
        validate_role r = .error (.ValidationError roleMsg)) ∧
      validate_role "Trainer" = .ok "trainer" ∧
      validate_role "admin" = .error (.ValidationError roleMsg) := by
  intro r
  have hr : validate_role r =
      if toLowercaseR r = "client" ∨ toLowercaseR r = "trainer"
      then .ok (toLowercaseR r) else .error (.ValidationError roleMsg) := by
    unfold validate_role
    by_cases hc : toLowercaseR r = "client" <;>
      by_cases ht : toLowercaseR r = "trainer" <;> simp [hc, ht]
  by_cases h : toLowercaseR r = "client" ∨ toLowercaseR r = "trainer"
  · rw [hr, if_pos h]
    refine ⟨⟨fun _ => h, fun _ => ⟨toLowercaseR r, rfl⟩⟩, ?_, fun hn => absurd h hn,
      by decide, by decide⟩
    intro v hv
    exact (Except.ok.inj hv).symm
  · rw [hr, if_neg h]
    refine ⟨⟨?_, fun hh => absurd hh h⟩, ?_, fun _ => rfl, by decide, by decide⟩
    · rintro ⟨v, hv⟩
      simp at hv
    · intro v hv
      simp at hv

theorem validate_role_spec_witness :
    ∃ v, validate_role "client" = .ok v :=
  (validate_role_spec "client").1.mpr (Or.inl (by decide))

/-- C8: `validate_full_name n` succeeds exactly when `n` has byte-length
between 2 and 100, splits on whitespace into at least 2 nonempty parts, and
every character is an ASCII Latin letter, one of the fixed Polish diacritics,
a space, a hyphen or an apostrophe; in particular `Anna Kowalska` is
accepted, `Anna` is rejected for having only one part, and
`Anna123 Kowalska` is rejected for its digits. -/
theorem validate_full_name_spec :
    ∀ n : String,
      (validate_full_name n = .ok () ↔
        2 ≤ utf8Len n.data ∧ utf8Len n.data ≤ 100 ∧
        2 ≤ countParts n.data ∧ n.data.all isNameChar = true) ∧
      validate_full_name "Anna Kowalska" = .ok () ∧
      validate_full_name "Anna" = .error (.ValidationError namePartsMsg) ∧
      validate_full_name "Anna123 Kowalska" = .error (.ValidationError nameCharsMsg) := by
  intro n
  refine ⟨?_, by decide, by decide, by decide⟩
  unfold validate_full_name
  constructor
  · intro h
    by_cases h1 : utf8Len n.data < 2
    · simp [h1] at h
    · by_cases h2 : utf8Len n.data > 100
      · simp [h1, h2] at h
      · by_cases h3 : countParts n.data < 2
        · simp [h1, h2, h3] at h
        · cases h4 : nameMatch n.data
          · simp [h1, h2, h3, h4] at h
          · have hall : n.data.all isNameChar = true := by
              have := h4
              unfold nameMatch at this
              exact (Bool.and_eq_true _ _ ▸ this).2
            exact ⟨Nat.le_of_not_lt h1, Nat.le_of_not_lt h2, Nat.le_of_not_lt h3, hall⟩
  · rintro ⟨h1, h2, h3, h4⟩
    have hne : n.data.isEmpty = false := utf8Len_pos_not_isEmpty h1
    have hm : nameMatch n.data = true := by
      unfold nameMatch
      simp [hne, h4]
    simp [Nat.not_lt_of_le h1, Nat.not_lt_of_le h2, Nat.not_lt_of_le h3, hm]

theorem validate_full_name_spec_witness :
    validate_full_name "Jan Nowak" = .ok () :=
  (validate_full_name_spec "Jan Nowak").1.mpr (by decide)

/-- C1 counterexample: on `Anna123` both length checks of
`validate_full_name` pass and the character-set check fails, so under the
claimed order (length, then character set, then structure) the reported
message would be the character-set message; the code instead reports the
structural name-parts message, because it checks the parts count before the
character set. -/
theorem check_order_counterexample :
    2 ≤ utf8Len (String.data "Anna123") ∧
    utf8Len (String.data "Anna123") ≤ 100 ∧
    nameMatch (String.data "Anna123") = false ∧
    validate_full_name "Anna123" = .error (.ValidationError namePartsMsg) ∧
    namePartsMsg ≠ nameCharsMsg := by decide

/-- C1 amended: each validator applies its checks in a fixed order and
reports the first violated rule in that order, but the order is not uniformly
length before character set before structure: password and username check
lengths first and character content last; full name checks its two length
bounds, then the structural parts count, then the character set; email checks
the pattern before the length bound and the `@` check; phone checks the
pattern before the digit count; role performs a single membership check.
Each validator below equals `runChecks` applied to its ordered list of
pass-condition/message pairs. -/
theorem check_order_per_validator :
    ∀ s : String,
      validate_password s = runChecks
        [(!decide (utf8Len s.data < 8), pwLenMsg),
         (s.data.any rIsDigit, pwDigitMsg),
         (s.data.any rIsUpper, pwUpperMsg),
         (s.data.any rIsLower, pwLowerMsg)] ∧
      validate_email s = runChecks
        [(emailMatch s.data, emailFmtMsg),
         (!decide (utf8Len s.data > 100), emailLenMsg),
         (s.data.contains '@', emailAtMsg)] ∧
      validate_phone_number s = runChecks
        [(phoneMatch s.data, phoneFmtMsg),
         (!decide (digitCount s.data < 6), phoneDigitsMsg)] ∧
      validate_username s = runChecks
        [(!decide (utf8Len s.data < 3), userMinMsg),
         (!decide (utf8Len s.data > 50), userMaxMsg),
         (usernameMatch s.data, userCharsMsg)] ∧
      validate_full_name s = runChecks
        [(!decide (utf8Len s.data < 2), nameMinMsg),
         (!decide (utf8Len s.data > 100), nameMaxMsg),
         (!decide (countParts s.data < 2), namePartsMsg),
         (nameMatch s.data, nameCharsMsg)] ∧
      (validate_role s = .ok (toLowercaseR s) ∨
       validate_role s = .error (.ValidationError roleMsg)) := by
  intro s
  refine ⟨?_, ?_, ?_, ?_, ?_, ?_⟩
  · unfold validate_password runChecks
    by_cases h1 : utf8Len s.data < 8 <;>
      cases h2 : s.data.any rIsDigit <;>
        cases h3 : s.data.any rIsUpper <;>
          cases h4 : s.data.any rIsLower <;> simp [h1, h2, h3, h4, runChecks]
  · unfold validate_email runChecks
    cases h1 : emailMatch s.data <;>
      by_cases h2 : utf8Len s.data > 100 <;>
        cases h3 : s.data.contains '@' <;> simp [h1, h2, h3, runChecks]
  · unfold validate_phone_number runChecks
    cases h1 : phoneMatch s.data <;>
      by_cases h2 : digitCount s.data < 6 <;> simp [h1, h2, runChecks]
  · unfold validate_username runChecks
    by_cases h1 : utf8Len s.data < 3 <;>
      by_cases h2 : utf8Len s.data > 50 <;>
        cases h3 : usernameMatch s.data <;> simp [h1, h2, h3, runChecks]
  · unfold validate_full_name runChecks
    by_cases h1 : utf8Len s.data < 2 <;>
      by_cases h2 : utf8Len s.data > 100 <;>
        by_cases h3 : countParts s.data < 2 <;>
          cases h4 : nameMatch s.data <;> simp [h1, h2, h3, h4, runChecks]
  · unfold validate_role
    by_cases hc : toLowercaseR s = "client" <;>
      by_cases ht : toLowercaseR s = "trainer" <;> simp [hc, ht]
